import Mathlib

/-!
Verification of the keiridocs document-management core.

This file gives a shallow embedding, in Lean, of the deterministic business
logic of the keiridocs repository and proves the specified properties of it:

* the Dropbox path builder `getDocumentPath` (src/lib/dropbox.ts),
* the OCR response normalizer `parseOcrResponse` and the auto-classification
  rule engine `applyAutoClassifyRules` (src/lib/gemini.ts),
* the mail approval / rejection handler (src/app/api/mail/approve route),
* the document registration / update handler (src/app/api/documents/route.ts),
* the monthly accountant export aggregator (src/app/api/accountant/route.ts).

JavaScript runtime behaviour is modelled explicitly: `null`/`undefined`
become `Option`, the nullish-coalescing operator `??` becomes `Option.getD`,
string truthiness (`if (s)`) tests non-emptiness, and `JSON.parse` is a
fuel-based executable JSON parser defined below.  External collaborators
(Dropbox move/copy, the Gemini inference call) are modelled as oracle
parameters: a `moveOutcome : Option String` is `some p` when the storage call
returns path `p` and `none` when it throws.
-/

/-! ## JavaScript string primitives -/

/-- The whitespace class used by the relevant JS operations (`\s` on the
fence-stripping regexes and `String.prototype.trim`); the common members
suffice for the inputs at hand. -/
def jsWhitespace (c : Char) : Bool :=
  c = ' ' || c = '\t' || c = '\n' || c = '\r' || c = '\x0b' || c = '\x0c'

/-- ASCII model of `String.prototype.toLowerCase` (the Japanese keywords and
vendor names the application works with have no case). -/
def jsToLower (s : String) : String :=
  String.mk (s.toList.map Char.toLower)

/-- Substring test on character lists, modelling `String.prototype.includes`. -/
def containsSub (needle : List Char) : List Char → Bool
  | [] => needle.isEmpty
  | c :: cs => needle.isPrefixOf (c :: cs) || containsSub needle cs

/-- The test `hay.includes(needle)` on strings. -/
def strIncludes (hay needle : String) : Bool :=
  containsSub needle.toList hay.toList

/-- The padding `String(n).padStart(2, "0")` as used on month numbers. -/
def padStart2 (s : String) : String :=
  if s.length < 2 then String.mk (List.replicate (2 - s.length) '0') ++ s else s

/-- JS string truthiness of a nullable string column: `null`, `undefined`
and `""` are falsy. -/
def truthyOpt : Option String → Bool
  | none => false
  | some s => s ≠ ""

/-- The expression `path.split("/").pop()` — the last `/`-separated segment (JS `split` on a
non-empty separator always returns at least one element, so `pop` never
yields `undefined`; a default is still supplied where the source writes
`?? d`). -/
def lastSegment (s : String) (dflt : String) : String :=
  (s.splitOn "/").getLastD dflt

/-! ## The path builder (src/lib/dropbox.ts, getDocumentPath)

A JS `Date` is modelled by its two observables used by the source:
`getFullYear()` and `getMonth()` (0-based, always in `0..11`). -/

structure JsDate where
  year : Nat
  monthIdx : Fin 12
deriving DecidableEq, Repr

/-- Function `getDocumentPath` from src/lib/dropbox.ts: contracts (`契約書`) go in a
flat folder; everything else is filed by type/year/month/status. -/
def getDocumentPath (type fileName : String) (date : JsDate) (status : String := "未処理") : String :=
  let base := "/経理書類"
  if type = "契約書" then
    base ++ "/契約書/" ++ fileName
  else
    let year := Nat.repr date.year ++ "年"
    let month := padStart2 (Nat.repr (date.monthIdx.val + 1)) ++ "月"
    base ++ "/" ++ type ++ "/" ++ year ++ "/" ++ month ++ "/" ++ status ++ "/" ++ fileName

/-! ## Markdown fence stripping (src/lib/gemini.ts, parseOcrResponse)

`responseText.replace(/```json\s*/g, "").replace(/```\s*/g, "").trim()` —
each regex is a literal token followed by a whitespace run, replaced
globally left to right. -/

/-- One global `replace(/<tok>\s*/g, "")` pass: scan left to right; at each
occurrence of `tok` drop it together with the following whitespace run.
Structural recursion on a fuel that starts at the input length; every step
shortens the input by at least one character, so the fuel never runs dry. -/
def stripFenceAux (tok : List Char) : Nat → List Char → List Char
  | _, [] => []
  | 0, l => l
  | fuel+1, c :: cs =>
    if tok.isPrefixOf (c :: cs) then
      stripFenceAux tok fuel ((cs.drop (tok.length - 1)).dropWhile jsWhitespace)
    else
      c :: stripFenceAux tok fuel cs

def stripFence (tok : List Char) (l : List Char) : List Char :=
  stripFenceAux tok l.length l

/-- Model of `String.prototype.trim`: drop leading and trailing whitespace. -/
def jsTrimChars (l : List Char) : List Char :=
  ((l.dropWhile jsWhitespace).reverse.dropWhile jsWhitespace).reverse

/-- The cleaning pipeline applied to the raw model response before the JSON
decode: strip ```json fences, strip bare ``` fences, trim. -/
def cleanFences (s : String) : String :=
  String.mk (jsTrimChars (stripFence "```".toList (stripFence "```json".toList s.toList)))

/-! ## An executable model of `JSON.parse` -/

/-- JSON values.  Numbers are modelled exactly as rationals (JS parses them
to binary doubles; the claims depend only on the runtime type tag and on
small decimal literals, where the two agree). -/
inductive JsValue where
  | jnull
  | jbool (b : Bool)
  | jnum (v : Rat)
  | jstr (s : String)
  | jarr (elems : List JsValue)
  | jobj (fields : List (String × JsValue))
deriving Repr, Inhabited

/-- JSON's whitespace (RFC 8259: space, tab, line feed, carriage return). -/
def jsonWsChar (c : Char) : Bool :=
  c = ' ' || c = '\t' || c = '\n' || c = '\r'

def skipWs (l : List Char) : List Char := l.dropWhile jsonWsChar

/-- Consume an expected literal; `none` when the input does not start with it. -/
def dropLit : List Char → List Char → Option (List Char)
  | [], l => some l
  | _ :: _, [] => none
  | c :: cs, d :: ds => if c = d then dropLit cs ds else none

def hexVal (c : Char) : Option Nat :=
  if '0' ≤ c ∧ c ≤ '9' then some (c.toNat - '0'.toNat)
  else if 'a' ≤ c ∧ c ≤ 'f' then some (c.toNat - 'a'.toNat + 10)
  else if 'A' ≤ c ∧ c ≤ 'F' then some (c.toNat - 'A'.toNat + 10)
  else none

def digitVal (c : Char) : Option Nat :=
  if '0' ≤ c ∧ c ≤ '9' then some (c.toNat - '0'.toNat) else none

/-- Longest prefix of decimal digits. -/
def spanDigits : List Char → List Nat × List Char
  | [] => ([], [])
  | c :: cs =>
    match digitVal c with
    | some d => let p := spanDigits cs; (d :: p.1, p.2)
    | none => ([], c :: cs)

def digitsToNat (ds : List Nat) : Nat := ds.foldl (fun a d => a * 10 + d) 0

/-- Body of a JSON string after the opening quote, with the standard escape
sequences; surrogate pairs in `\uXXXX` escapes are combined, and lone
surrogates (representable in JS's UTF-16 strings but not as Lean `Char`)
are mapped to U+FFFD. -/
def parseJStringAux : Nat → List Char → Option (List Char × List Char)
  | 0, _ => none
  | _, [] => none
  | fuel+1, c :: rest =>
    if c = '"' then some ([], rest)
    else if c = '\\' then
      match rest with
      | [] => none
      | e :: rest2 =>
        if e = '"' then (parseJStringAux fuel rest2).map (fun p => ('"' :: p.1, p.2))
        else if e = '\\' then (parseJStringAux fuel rest2).map (fun p => ('\\' :: p.1, p.2))
        else if e = '/' then (parseJStringAux fuel rest2).map (fun p => ('/' :: p.1, p.2))
        else if e = 'b' then (parseJStringAux fuel rest2).map (fun p => ('\x08' :: p.1, p.2))
        else if e = 'f' then (parseJStringAux fuel rest2).map (fun p => ('\x0c' :: p.1, p.2))
        else if e = 'n' then (parseJStringAux fuel rest2).map (fun p => ('\n' :: p.1, p.2))
        else if e = 'r' then (parseJStringAux fuel rest2).map (fun p => ('\r' :: p.1, p.2))
        else if e = 't' then (parseJStringAux fuel rest2).map (fun p => ('\t' :: p.1, p.2))
        else if e = 'u' then
          match rest2 with
          | h1 :: h2 :: h3 :: h4 :: rest3 =>
            match hexVal h1, hexVal h2, hexVal h3, hexVal h4 with
            | some a, some b, some c2, some d =>
              let code := ((a * 16 + b) * 16 + c2) * 16 + d
              if 0xD800 ≤ code ∧ code ≤ 0xDBFF then
                match rest3 with
                | '\\' :: 'u' :: g1 :: g2 :: g3 :: g4 :: rest4 =>
                  match hexVal g1, hexVal g2, hexVal g3, hexVal g4 with
                  | some a2, some b2, some c3, some d2 =>
                    let lo := ((a2 * 16 + b2) * 16 + c3) * 16 + d2
                    if 0xDC00 ≤ lo ∧ lo ≤ 0xDFFF then
                      let cp := 0x10000 + (code - 0xD800) * 0x400 + (lo - 0xDC00)
                      (parseJStringAux fuel rest4).map (fun p => (Char.ofNat cp :: p.1, p.2))
                    else
                      (parseJStringAux fuel rest3).map (fun p => ('�' :: p.1, p.2))
                  | _, _, _, _ =>
                    (parseJStringAux fuel rest3).map (fun p => ('�' :: p.1, p.2))
                | _ =>
                  (parseJStringAux fuel rest3).map (fun p => ('�' :: p.1, p.2))
              else if 0xDC00 ≤ code ∧ code ≤ 0xDFFF then
                (parseJStringAux fuel rest3).map (fun p => ('�' :: p.1, p.2))
              else
                (parseJStringAux fuel rest3).map (fun p => (Char.ofNat code :: p.1, p.2))
            | _, _, _, _ => none
          | _ => none
        else none
    else if c.toNat < 0x20 then none
    else (parseJStringAux fuel rest).map (fun p => (c :: p.1, p.2))

/-- Optional fraction part `.[0-9]+`. -/
def parseFrac : List Char → Option (List Nat × List Char)
  | '.' :: t =>
    match spanDigits t with
    | ([], _) => none
    | (ds, r) => some (ds, r)
  | l => some ([], l)

/-- Optional exponent part `[eE][+-]?[0-9]+`. -/
def parseExp : List Char → Option (Int × List Char)
  | c :: t =>
    if c = 'e' ∨ c = 'E' then
      let p : Bool × List Char :=
        match t with
        | '+' :: u => (false, u)
        | '-' :: u => (true, u)
        | u => (false, u)
      match spanDigits p.2 with
      | ([], _) => none
      | (ds, r) =>
        some (if p.1 then -(digitsToNat ds : Int) else (digitsToNat ds : Int), r)
    else some (0, c :: t)
  | [] => some (0, [])

/-- JSON number: `-? (0 | [1-9][0-9]*) frac? exp?`, valued exactly. -/
def parseNumber (l : List Char) : Option (Rat × List Char) :=
  let sp : Bool × List Char := match l with | '-' :: t => (true, t) | t => (false, t)
  match sp.2 with
  | [] => none
  | c :: cs =>
    match digitVal c with
    | none => none
    | some d0 =>
      let ip : List Nat × List Char :=
        if c = '0' then (([0] : List Nat), cs)
        else
          let p := spanDigits cs
          (d0 :: p.1, p.2)
      match parseFrac ip.2 with
      | none => none
      | some (fracDigits, rest2) =>
        match parseExp rest2 with
        | none => none
        | some (e, rest3) =>
          let mant : Nat := digitsToNat (ip.1 ++ fracDigits)
          let scale : Int := e - (fracDigits.length : Int)
          let v : Rat := (mant : Rat) * (10 : Rat) ^ scale
          some (if sp.1 then -v else v, rest3)

mutual

/-- One JSON value starting at the (whitespace-skipped) head of the input. -/
def parseVal : Nat → List Char → Option (JsValue × List Char)
  | 0, _ => none
  | fuel+1, l =>
    match skipWs l with
    | [] => none
    | c :: rest =>
      if c = 'n' then (dropLit "ull".toList rest).map (fun r => (JsValue.jnull, r))
      else if c = 't' then (dropLit "rue".toList rest).map (fun r => (JsValue.jbool true, r))
      else if c = 'f' then (dropLit "alse".toList rest).map (fun r => (JsValue.jbool false, r))
      else if c = '"' then
        (parseJStringAux rest.length rest).map (fun p => (JsValue.jstr (String.mk p.1), p.2))
      else if c = '[' then
        match skipWs rest with
        | ']' :: r2 => some (JsValue.jarr [], r2)
        | r2 => (parseElems fuel r2).map (fun p => (JsValue.jarr p.1, p.2))
      else if c = '{' then
        match skipWs rest with
        | '}' :: r2 => some (JsValue.jobj [], r2)
        | r2 => (parseMembers fuel r2).map (fun p => (JsValue.jobj p.1, p.2))
      else (parseNumber (c :: rest)).map (fun p => (JsValue.jnum p.1, p.2))

/-- Comma-separated array elements up to the closing bracket. -/
def parseElems : Nat → List Char → Option (List JsValue × List Char)
  | 0, _ => none
  | fuel+1, l =>
    match parseVal fuel l with
    | none => none
    | some (v, r) =>
      match skipWs r with
      | ',' :: r2 => (parseElems fuel r2).map (fun p => (v :: p.1, p.2))
      | ']' :: r2 => some ([v], r2)
      | _ => none

/-- Comma-separated object members up to the closing brace. -/
def parseMembers : Nat → List Char → Option (List (String × JsValue) × List Char)
  | 0, _ => none
  | fuel+1, l =>
    match skipWs l with
    | '"' :: rest =>
      match parseJStringAux rest.length rest with
      | none => none
      | some (keyChars, r1) =>
        match skipWs r1 with
        | ':' :: r2 =>
          match parseVal fuel r2 with
          | none => none
          | some (v, r3) =>
            match skipWs r3 with
            | ',' :: r4 => (parseMembers fuel r4).map (fun p => ((String.mk keyChars, v) :: p.1, p.2))
            | '}' :: r4 => some ([(String.mk keyChars, v)], r4)
            | _ => none
        | _ => none
    | _ => none

end

/-- Model of `JSON.parse`: a complete value followed only by whitespace; `none`
models the thrown `SyntaxError`.  The fuel bound is generous: every
recursive call is separated by the consumption of at least one character. -/
def jsonParse (s : String) : Option JsValue :=
  let l := s.toList
  match parseVal (2 * l.length + 2) l with
  | some (v, rest) => if (skipWs rest).isEmpty then some v else none
  | none => none

/-- JS property access `obj.key` on a parsed JSON value: on an object the
last binding wins (as with duplicate keys in `JSON.parse`); on any
non-object it is `undefined` (`none`).  Access on `null` throws and is
handled at the use site. -/
def getProp (j : JsValue) (key : String) : Option JsValue :=
  match j with
  | JsValue.jobj fields => ((fields.filter (fun p => p.1 == key)).getLast?).map (fun p => p.2)
  | _ => none

/-! ## The OCR result normalizer (src/lib/gemini.ts) -/

/-- Record `OcrResult` from src/lib/gemini.ts (nullable fields become `Option`). -/
structure OcrResult where
  vendor_name : String
  amount : Option Rat
  issue_date : Option String
  due_date : Option String
  description : Option String
  type : Option String
  confidence : Rat
deriving DecidableEq, Repr

/-- Constant `FALLBACK_RESULT` from src/lib/gemini.ts. -/
def FALLBACK_RESULT : OcrResult :=
  { vendor_name := ""
    amount := none
    issue_date := none
    due_date := none
    description := none
    type := none
    confidence := 0 }

/-- Function `parseOcrResponse` from src/lib/gemini.ts: strip fences, `JSON.parse`,
then keep each field only when its runtime type matches (`typeof`),
substituting the documented default otherwise.  A thrown `SyntaxError`
(parse failure) or `TypeError` (property access on a `null` root) is caught
and yields `FALLBACK_RESULT`. -/
def parseOcrResponse (responseText : String) : OcrResult :=
  match jsonParse (cleanFences responseText) with
  | none => FALLBACK_RESULT
  | some JsValue.jnull => FALLBACK_RESULT
  | some parsed =>
    { vendor_name :=
        match getProp parsed "vendor_name" with
        | some (JsValue.jstr v) => v
        | _ => ""
      amount :=
        match getProp parsed "amount" with
        | some (JsValue.jnum v) => some v
        | _ => none
      issue_date :=
        match getProp parsed "issue_date" with
        | some (JsValue.jstr v) => some v
        | _ => none
      due_date :=
        match getProp parsed "due_date" with
        | some (JsValue.jstr v) => some v
        | _ => none
      description :=
        match getProp parsed "description" with
        | some (JsValue.jstr v) => some v
        | _ => none
      type :=
        match getProp parsed "type" with
        | some (JsValue.jstr v) => some v
        | _ => none
      confidence :=
        match getProp parsed "confidence" with
        | some (JsValue.jnum v) => v
        | _ => 0 }

/-! ## The auto-classification rule engine (src/lib/gemini.ts) -/

/-- Record `AutoClassifyRule` from src/lib/gemini.ts. -/
structure AutoClassifyRule where
  keyword : String
  document_type : String
  priority : Int
  is_active : Bool
deriving DecidableEq, Repr

/-- Stable insertion of a rule into a priority-descending list: the new rule
goes after all rules of greater or equal priority. -/
def insertDesc (r : AutoClassifyRule) : List AutoClassifyRule → List AutoClassifyRule
  | [] => [r]
  | x :: xs => if x.priority < r.priority then r :: x :: xs else x :: insertDesc r xs

/-- The call `rules.sort((a, b) => b.priority - a.priority)`: ECMAScript `sort` is
required to be stable, so its result on this comparator is exactly the
stable descending insertion sort. -/
def sortByPriorityDesc (rules : List AutoClassifyRule) : List AutoClassifyRule :=
  rules.foldl (fun acc r => insertDesc r acc) []

/-- The `for`-loop of `applyAutoClassifyRules`: the first rule whose
lower-cased keyword occurs in the search text. -/
def firstMatch (searchText : String) : List AutoClassifyRule → Option AutoClassifyRule
  | [] => none
  | r :: rs =>
    if strIncludes searchText (jsToLower r.keyword) then some r
    else firstMatch searchText rs

/-- Function `applyAutoClassifyRules` from src/lib/gemini.ts: active rules in
descending priority order; the first keyword match overwrites `type`. -/
def applyAutoClassifyRules (result : OcrResult) (rules : List AutoClassifyRule) : OcrResult :=
  let activeRules := sortByPriorityDesc (rules.filter (fun r => r.is_active))
  let searchText := jsToLower (result.vendor_name ++ " " ++ (result.description.getD ""))
  match firstMatch searchText activeRules with
  | some r => { result with type := some r.document_type }
  | none => result

/-! ## Data rows (src/types/database.ts, supabase migration 001) -/

/-- A `mail_pending` row (columns used by the approval route). -/
structure MailPendingRow where
  id : String
  file_name : String
  sender : String
  ai_type : Option String
  ai_confidence : Option Rat
  temp_path : Option String
  status : String
  user_id : String
  created_at : String
deriving DecidableEq, Repr

/-- A `documents` row (columns used by the routes under verification). -/
structure DocumentRow where
  id : String
  type : String
  vendor_name : String
  amount : Option Rat
  issue_date : Option String
  due_date : Option String
  description : Option String
  input_method : String
  status : String
  dropbox_path : Option String
  user_id : String
  created_at : String
deriving DecidableEq, Repr

/-- A row inserted into `documents` by the creation paths (the argument of
`supabase.from("documents").insert({...})`; the generated columns are
omitted, `ocr_raw` is carried as the normalized result it is serialized
from). -/
structure DocumentInsert where
  type : String
  vendor_name : String
  amount : Option Rat
  issue_date : Option String
  due_date : Option String
  description : Option String
  input_method : String
  status : String
  dropbox_path : Option String
  ocr_raw : Option OcrResult
  user_id : String
deriving DecidableEq, Repr

/-! ## Mail approval and rejection (src/app/api/mail approve/reject route,
src/unnamed/part_000)

The Supabase filters of the route translate to list operations over the
store; per the initial schema (src/unnamed/part_015) the `mail_pending`
and `documents` tables additionally carry the row-level-security policy
`auth.uid() = user_id`, which coincides here with the explicit
`.eq("user_id", user.id)` filters of the route. -/

/-- The reject branch:
`update({ status: "rejected" }).in("id", ids).eq("user_id", user.id)` —
note there is no `.eq("status", "pending")` filter on this update. -/
def rejectMailItems (store : List MailPendingRow) (callerId : String)
    (ids : List String) : List MailPendingRow :=
  store.map (fun it =>
    if ids.contains it.id && it.user_id == callerId then
      { it with status := "rejected" }
    else it)

/-- The fetch of the approve branch:
`.in("id", ids).eq("user_id", user.id).eq("status", "pending")`. -/
def fetchPendingItems (store : List MailPendingRow) (callerId : String)
    (ids : List String) : List MailPendingRow :=
  store.filter (fun it =>
    ids.contains it.id && it.user_id == callerId && it.status == "pending")

/-- The effective document type of one approved item:
`let docType = type ?? item.ai_type ?? "請求書"`, recomputed as
`type ?? ocrResult.type ?? item.ai_type ?? "請求書"` when a re-analysis
payload was supplied. -/
def approveItemDocType (overrideType : Option String)
    (reanalysis : Option OcrResult) (item : MailPendingRow) : String :=
  let docType := overrideType.getD (item.ai_type.getD "請求書")
  match reanalysis with
  | some ocr => overrideType.getD (ocr.type.getD (item.ai_type.getD "請求書"))
  | none => docType

/-- Per-item processing of the approve branch.  `reanalysis` is `some ocr`
when the request carried `base64`/`mimeType` and the fresh Gemini analysis
normalized to `ocr`; `moveOutcome` is the Dropbox oracle (`some p`: the
move returned `p`; `none`: it threw, and the item's temporary path is kept).
The result is the row inserted into `documents`, or `none` when
`item.temp_path` is falsy and the item is skipped entirely. -/
def approveItem (callerId : String) (overrideType : Option String)
    (reanalysis : Option OcrResult) (moveOutcome : Option String)
    (item : MailPendingRow) : Option DocumentInsert :=
  match item.temp_path with
  | none => none
  | some tempPath =>
    if tempPath = "" then none
    else
      let docType := approveItemDocType overrideType reanalysis item
      let movedPath :=
        match moveOutcome with
        | some p => p
        | none => tempPath
      some
        { type := docType
          vendor_name :=
            match reanalysis with
            | some ocr => if ocr.vendor_name = "" then item.sender else ocr.vendor_name
            | none => item.sender
          amount := reanalysis.bind (fun ocr => ocr.amount)
          issue_date := reanalysis.bind (fun ocr => ocr.issue_date)
          due_date := reanalysis.bind (fun ocr => ocr.due_date)
          description :=
            some ((reanalysis.bind (fun ocr => ocr.description)).getD
              ("メール添付: " ++ item.file_name))
          input_method := "email"
          status := "未処理"
          dropbox_path := some movedPath
          ocr_raw := reanalysis
          user_id := callerId }

/-- The destination path computed for an approved item before the move:
`getDocumentPath(docType, item.file_name, new Date(), "未処理")`. -/
def approveItemNewPath (overrideType : Option String)
    (reanalysis : Option OcrResult) (now : JsDate) (item : MailPendingRow) : String :=
  getDocumentPath (approveItemDocType overrideType reanalysis item) item.file_name now "未処理"

/-! ## Document registration and update (src/app/api/documents/route.ts) -/

/-- The request body of the registration endpoint (`POST`).  A field is
`some v` when the corresponding key is present with the runtime type the
handler's `typeof` check expects, and `none` when it is absent or
wrong-typed (the handler treats the two identically).  `status` records any
caller-supplied value for the `status` key, which the handler never reads. -/
structure DocumentCreateBody where
  type : Option String
  vendor_name : Option String
  amount : Option Rat
  issue_date : Option String
  due_date : Option String
  description : Option String
  input_method : Option String
  dropbox_path : Option String
  ocr_raw : Option OcrResult
  status : Option String
deriving DecidableEq, Repr

/-- The registration handler: validation of the required fields, then the
insert; `none` models the 400 response.  The inserted `status` is the
hard-coded literal `"未処理"`. -/
def createDocument (callerId : String) (body : DocumentCreateBody) : Option DocumentInsert :=
  match body.type, body.vendor_name with
  | some type, some vendor_name =>
    match body.input_method with
    | some input_method =>
      some
        { type := type
          vendor_name := vendor_name
          amount := body.amount
          issue_date := body.issue_date
          due_date := body.due_date
          description := body.description
          input_method := input_method
          status := "未処理"
          dropbox_path := body.dropbox_path
          ocr_raw := body.ocr_raw
          user_id := callerId }
    | none => none
  | _, _ => none

/-- The request body of the update endpoint (`PATCH`).  For the nullable
columns the handler distinguishes key-absent (`none`: field untouched) from
key-present (`some v`: set to `v`, where a wrong-typed value becomes
`null`, i.e. `some none`); `type`, `vendor_name` and `status` are set only
when present as strings. -/
structure DocumentPatchBody where
  type : Option String
  vendor_name : Option String
  amount : Option (Option Rat)
  issue_date : Option (Option String)
  due_date : Option (Option String)
  description : Option (Option String)
  status : Option String
deriving DecidableEq, Repr

/-- The `update` record the handler accumulates (a missing field is not part
of the database update). -/
structure DocumentUpdate where
  type : Option String := none
  vendor_name : Option String := none
  amount : Option (Option Rat) := none
  issue_date : Option (Option String) := none
  due_date : Option (Option String) := none
  description : Option (Option String) := none
  status : Option String := none
  dropbox_path : Option String := none
deriving DecidableEq, Repr

/-- The check `Object.keys(update).length > 0` before the relocation step. -/
def DocumentUpdate.hasUpdates (u : DocumentUpdate) : Bool :=
  u.type.isSome || u.vendor_name.isSome || u.amount.isSome || u.issue_date.isSome ||
  u.due_date.isSome || u.description.isSome || u.status.isSome

/-- Applying an update record to the existing row (the database `UPDATE`). -/
def applyUpdate (existing : DocumentRow) (u : DocumentUpdate) : DocumentRow :=
  { existing with
    type := u.type.getD existing.type
    vendor_name := u.vendor_name.getD existing.vendor_name
    amount := u.amount.getD existing.amount
    issue_date := u.issue_date.getD existing.issue_date
    due_date := u.due_date.getD existing.due_date
    description := u.description.getD existing.description
    status := u.status.getD existing.status
    dropbox_path :=
      match u.dropbox_path with
      | some p => some p
      | none => existing.dropbox_path }

/-- Outcome of the update handler: the persisted row (or `none` for the
"no fields" 400 response) together with the Dropbox move request it issued,
if any. -/
structure PatchOutcome where
  response : Option DocumentRow
  moveRequest : Option (String × String)
deriving DecidableEq, Repr

/-- The update record built from the request body (the chain of
`if (typeof body.x === ...) update.x = ...` statements). -/
def patchUpdateOf (body : DocumentPatchBody) : DocumentUpdate :=
  { type := body.type
    vendor_name := body.vendor_name
    amount := body.amount
    issue_date := body.issue_date
    due_date := body.due_date
    description := body.description
    status := body.status }

/-- The relocation decision of the `PATCH` handler: a move `(from, to)` is
issued only when the requested status is truthy, differs from the existing
status, and the existing path is truthy, and the recomputed path differs
from the current one.  `toDate` models `new Date(dateStr)` restricted to
its observables. -/
def patchRelocation (existing : DocumentRow) (u0 : DocumentUpdate)
    (toDate : String → JsDate) : Option (String × String) :=
  match u0.status, existing.dropbox_path with
  | some newStatus, some oldPath =>
    if newStatus ≠ "" && newStatus ≠ existing.status && oldPath ≠ "" then
      let newType := u0.type.getD existing.type
      let fileName := lastSegment oldPath ""
      let dateStr := existing.issue_date.getD existing.created_at
      let newPath := getDocumentPath newType fileName (toDate dateStr) newStatus
      if newPath ≠ oldPath then some (oldPath, newPath) else none
    else none
  | _, _ => none

/-- The `PATCH` handler of src/app/api/documents/route.ts.  `moveOutcome`
is the Dropbox oracle for the (at most one) move the handler can issue; a
throwing move (`none`) is caught and leaves the update's `dropbox_path`
unset. -/
def patchDocument (existing : DocumentRow) (body : DocumentPatchBody)
    (toDate : String → JsDate) (moveOutcome : Option String) : PatchOutcome :=
  let u0 := patchUpdateOf body
  if u0.hasUpdates then
    let relocate := patchRelocation existing u0 toDate
    let u1 :=
      match relocate with
      | some _ =>
        match moveOutcome with
        | some movedPath => { u0 with dropbox_path := some movedPath }
        | none => u0
      | none => u0
    { response := some (applyUpdate existing u1), moveRequest := relocate }
  else
    { response := none, moveRequest := none }

/-! ## The monthly accountant export (src/app/api/accountant/route.ts)

The handler's document query
`.in("type", docTypes).gte("issue_date", dateFrom).lte("issue_date", dateTo)`
carries no application-level owner filter; the rows it can see are
nevertheless owner-scoped by the database (below).  The `ORDER BY` clauses
are omitted from the model: the aggregates proved about it are
order-independent, and the SQL collation is environment-defined. -/

/-- Modelled from the spec: the relational store enforces per-owner row
isolation ("every query filters by an owner key", "all queries and
mutations are implicitly filtered to the caller's own rows").  The policy
itself is in src (initial schema, src/unnamed/part_015:
`create policy "Users can manage own documents" on documents for all using
(auth.uid() = user_id)`); what is not in src is the construction of the
server-side Supabase client (`@/lib/supabase/server`), modelled here as a
session-scoped client for which `auth.uid()` is the calling user. -/
def rlsVisibleDocs (store : List DocumentRow) (callerId : String) : List DocumentRow :=
  store.filter (fun d => d.user_id == callerId)

/-- The document selection of the export handler over the RLS-visible rows:
type in the requested list and `issue_date` within the inclusive month
bounds (a SQL range comparison on a `NULL` date matches nothing). -/
def selectExportDocs (store : List DocumentRow) (callerId : String)
    (docTypes : List String) (dateFrom dateTo : String) : List DocumentRow :=
  (rlsVisibleDocs store callerId).filter (fun d =>
    docTypes.contains d.type &&
    (match d.issue_date with
     | some dt => decide (dateFrom ≤ dt) && decide (dt ≤ dateTo)
     | none => false))

/-- The grouping `groupedDocs`: a JS `Map` keyed by `type`, insertion-ordered, each key
holding the documents of that type in query order. -/
def addToGroups : List (String × List DocumentRow) → DocumentRow →
    List (String × List DocumentRow)
  | [], d => [(d.type, [d])]
  | (t, ds) :: rest, d =>
    if t == d.type then (t, ds ++ [d]) :: rest
    else (t, ds) :: addToGroups rest d

def groupByType (docs : List DocumentRow) : List (String × List DocumentRow) :=
  docs.foldl addToGroups []

/-- One CSV data row (the five columns pushed into `csvRows`; the string
rendering — join, quoting, number formatting — carries no claim and is left
at the field level). -/
structure CsvRow where
  type : String
  vendor_name : String
  amount : Option Rat
  issue_date : String
  file_name : String
deriving DecidableEq, Repr

/-- The `results` entries (`TypeResult` in the source). -/
structure TypeResult where
  type : String
  count : Nat
  totalAmount : Rat
deriving DecidableEq, Repr

/-- The per-document step of the copy loop: a copy is attempted only for a
truthy `dropbox_path`; on success (`copyOk`) the copy counter advances and
a CSV row is accumulated; the amount is accumulated for every document
(`typeAmount += doc.amount ?? 0`). -/
def exportDocStep (copyOk : DocumentRow → Bool)
    (acc : Nat × Rat × List CsvRow) (d : DocumentRow) : Nat × Rat × List CsvRow :=
  let afterCopy :=
    match d.dropbox_path with
    | some p =>
      if p ≠ "" && copyOk d then
        (acc.1 + 1, acc.2.2 ++
          [({ type := d.type
              vendor_name := d.vendor_name
              amount := d.amount
              issue_date := d.issue_date.getD ""
              file_name := lastSegment p (d.vendor_name ++ ".pdf") } : CsvRow)])
      else (acc.1, acc.2.2)
    | none => (acc.1, acc.2.2)
  (afterCopy.1, acc.2.1 + d.amount.getD 0, afterCopy.2)

/-- The inner loop over one type group. -/
def processGroupDocs (copyOk : DocumentRow → Bool) (docs : List DocumentRow) :
    Nat × Rat × List CsvRow :=
  docs.foldl (exportDocStep copyOk) (0, 0, [])

/-- The whole response data of the export handler (folder paths aside):
per-type results, the accumulated CSV rows, and the totals
(`total_count` is the number of successful copies, `total_amount` the sum
of the per-type sums). -/
structure ExportResult where
  results : List TypeResult
  csvRows : List CsvRow
  total_count : Nat
  total_amount : Rat
deriving DecidableEq, Repr

/-- The export aggregation: select, group by type, run the copy loop per
group.  `copyOk` is the Dropbox oracle telling which individual
`copyFile` calls succeed (a failed copy is caught, logged and skipped). -/
def runExport (store : List DocumentRow) (callerId : String)
    (docTypes : List String) (dateFrom dateTo : String)
    (copyOk : DocumentRow → Bool) : ExportResult :=
  let docs := selectExportDocs store callerId docTypes dateFrom dateTo
  let groups := groupByType docs
  let perGroup := groups.map (fun g =>
    let r := processGroupDocs copyOk g.2
    ({ type := g.1, count := r.1, totalAmount := r.2.1 : TypeResult }, r.2.2))
  { results := perGroup.map (fun p => p.1)
    csvRows := (perGroup.map (fun p => p.2)).flatten
    total_count := (perGroup.map (fun p => p.1.count)).sum
    total_amount := (perGroup.map (fun p => p.1.totalAmount)).sum }

/-- The match condition of the rule loop, named for the statements below:
the lower-cased vendor-name/description haystack contains the rule's
lower-cased keyword as a substring. -/
def ruleMatches (result : OcrResult) (r : AutoClassifyRule) : Bool :=
  strIncludes (jsToLower (result.vendor_name ++ " " ++ (result.description.getD "")))
    (jsToLower r.keyword)

/-- The CSV row produced for a successfully copied document (used to state
the loop characterization). -/
def exportCsvRowOf (d : DocumentRow) : CsvRow :=
  { type := d.type
    vendor_name := d.vendor_name
    amount := d.amount
    issue_date := d.issue_date.getD ""
    file_name := lastSegment (d.dropbox_path.getD "") (d.vendor_name ++ ".pdf") }

/-- A document whose copy attempt succeeds: truthy storage path and a
successful `copyFile` call. -/
def copiedDoc (copyOk : DocumentRow → Bool) (d : DocumentRow) : Bool :=
  truthyOpt d.dropbox_path && copyOk d

/-! ## Theorems -/

section Claims

set_option maxRecDepth 4000

lemma reprLenFourAux :
    ∀ a < 100, ∀ b < 100, 1000 ≤ a * 100 + b → (Nat.repr (a * 100 + b)).length = 4 := by
  decide

/-- Decimal numerals of calendar years in `1000..9999` have four digits. -/
lemma reprLenFour (y : Nat) (h1 : 1000 ≤ y) (h2 : y ≤ 9999) : (Nat.repr y).length = 4 := by
  have hy : y = y / 100 * 100 + y % 100 := by omega
  have ha : y / 100 < 100 := by omega
  have hb : y % 100 < 100 := Nat.mod_lt _ (by omega)
  have h := reprLenFourAux (y / 100) ha (y % 100) hb (by omega)
  rwa [← hy] at h

/-- Month numerals `1..12` pad to exactly two digits. -/
lemma monthStrLenTwo : ∀ m : Fin 12, (padStart2 (Nat.repr (m.val + 1))).length = 2 := by
  decide

/-- C2.  For `type = "契約書"` the path builder returns exactly
`<root>/契約書/<fileName>` with no date or status segment; for every other
type it returns `<root>/<type>/<year>年/<month>月/<status>/<fileName>`,
where the month segment is the zero-padded two-digit local-calendar month
of the date and the year segment is the decimal local-calendar year
(four digits for any calendar year between 1000 and 9999). -/
theorem c2_getDocumentPath_shape (type fileName status : String) (d : JsDate) :
    (type = "契約書" →
      getDocumentPath type fileName d status = "/経理書類/契約書/" ++ fileName) ∧
    (type ≠ "契約書" →
      getDocumentPath type fileName d status =
        "/経理書類/" ++ type ++ "/" ++ Nat.repr d.year ++ "年/" ++
          padStart2 (Nat.repr (d.monthIdx.val + 1)) ++ "月/" ++ status ++ "/" ++ fileName ∧
      (padStart2 (Nat.repr (d.monthIdx.val + 1))).length = 2 ∧
      (1000 ≤ d.year → d.year ≤ 9999 → (Nat.repr d.year).length = 4)) := by
  constructor
  · intro h
    simp [getDocumentPath, h]
  · intro h
    refine ⟨?_, monthStrLenTwo d.monthIdx, fun h1 h2 => reprLenFour d.year h1 h2⟩
    simp only [getDocumentPath, if_neg h]
    simp [String.append_assoc]

/-- Witness for C2 at a concrete date, type and status. -/
theorem c2_witness :
    getDocumentPath "契約書" "a.pdf" ⟨2026, 2⟩ "未処理" = "/経理書類/契約書/a.pdf" ∧
    getDocumentPath "請求書" "a.pdf" ⟨2026, 2⟩ "未処理" =
      "/経理書類/請求書/2026年/03月/未処理/a.pdf" := by
  have h := c2_getDocumentPath_shape "契約書" "a.pdf" "未処理" ⟨2026, 2⟩
  have h2 := c2_getDocumentPath_shape "請求書" "a.pdf" "未処理" ⟨2026, 2⟩
  refine ⟨h.1 rfl, ?_⟩
  have := (h2.2 (by decide)).1
  rw [this]
  rfl

/-- C1.  The OCR normalizer is total — it is a function returning a
well-formed `OcrResult` on every input string — and behaves as specified:
on any parse failure (malformed JSON; the empty string and non-JSON text
included) it returns the all-default fallback record, as it does on a
`null` root (whose property access throws and is caught) and on a JSON
array root; on any other successfully parsed root each field is accepted
only if its runtime type matches (strings for the string fields, numbers
for `amount`/`confidence`), with the documented default substituted
otherwise. -/
theorem c1_parseOcrResponse_total (s : String) :
    (jsonParse (cleanFences s) = none → parseOcrResponse s = FALLBACK_RESULT) ∧
    (jsonParse (cleanFences s) = some JsValue.jnull → parseOcrResponse s = FALLBACK_RESULT) ∧
    (∀ elems, jsonParse (cleanFences s) = some (JsValue.jarr elems) →
      parseOcrResponse s = FALLBACK_RESULT) ∧
    (∀ j, jsonParse (cleanFences s) = some j → j ≠ JsValue.jnull →
      ((parseOcrResponse s).vendor_name =
        match getProp j "vendor_name" with
        | some (JsValue.jstr v) => v
        | _ => "") ∧
      ((parseOcrResponse s).amount =
        match getProp j "amount" with
        | some (JsValue.jnum v) => some v
        | _ => none) ∧
      ((parseOcrResponse s).issue_date =
        match getProp j "issue_date" with
        | some (JsValue.jstr v) => some v
        | _ => none) ∧
      ((parseOcrResponse s).due_date =
        match getProp j "due_date" with
        | some (JsValue.jstr v) => some v
        | _ => none) ∧
      ((parseOcrResponse s).description =
        match getProp j "description" with
        | some (JsValue.jstr v) => some v
        | _ => none) ∧
      ((parseOcrResponse s).type =
        match getProp j "type" with
        | some (JsValue.jstr v) => some v
        | _ => none) ∧
      ((parseOcrResponse s).confidence =
        match getProp j "confidence" with
        | some (JsValue.jnum v) => v
        | _ => 0)) := by
  refine ⟨?_, ?_, ?_, ?_⟩
  · intro h
    unfold parseOcrResponse
    rw [h]
  · intro h
    unfold parseOcrResponse
    rw [h]
  · intro elems h
    unfold parseOcrResponse
    rw [h]
    rfl
  · intro j hj hne
    cases j with
    | jnull => exact absurd rfl hne
    | jbool b =>
      unfold parseOcrResponse
      rw [hj]
      exact ⟨rfl, rfl, rfl, rfl, rfl, rfl, rfl⟩
    | jnum v =>
      unfold parseOcrResponse
      rw [hj]
      exact ⟨rfl, rfl, rfl, rfl, rfl, rfl, rfl⟩
    | jstr v =>
      unfold parseOcrResponse
      rw [hj]
      exact ⟨rfl, rfl, rfl, rfl, rfl, rfl, rfl⟩
    | jarr elems =>
      unfold parseOcrResponse
      rw [hj]
      exact ⟨rfl, rfl, rfl, rfl, rfl, rfl, rfl⟩
    | jobj fields =>
      unfold parseOcrResponse
      rw [hj]
      exact ⟨rfl, rfl, rfl, rfl, rfl, rfl, rfl⟩

/-- Witness for C1: the empty string, non-JSON prose, a `null` root, an
array root, and a one-field object whose other fields are absent. -/
theorem c1_witness :
    parseOcrResponse "" = FALLBACK_RESULT ∧
    parseOcrResponse "it is not JSON at all" = FALLBACK_RESULT ∧
    parseOcrResponse "null" = FALLBACK_RESULT ∧
    parseOcrResponse "[]" = FALLBACK_RESULT ∧
    (parseOcrResponse "\x7b\"vendor_name\": \"ACME\"\x7d").vendor_name = "ACME" ∧
    (parseOcrResponse "\x7b\"vendor_name\": \"ACME\"\x7d").amount = none := by
  refine ⟨(c1_parseOcrResponse_total "").1 rfl,
    (c1_parseOcrResponse_total "it is not JSON at all").1 rfl,
    (c1_parseOcrResponse_total "null").2.1 rfl,
    (c1_parseOcrResponse_total "[]").2.2.1 [] rfl, ?_, ?_⟩
  · have h := (c1_parseOcrResponse_total "\x7b\"vendor_name\": \"ACME\"\x7d").2.2.2
      (JsValue.jobj [("vendor_name", JsValue.jstr "ACME")]) rfl (by intro h; cases h)
    exact h.1.trans rfl
  · have h := (c1_parseOcrResponse_total "\x7b\"vendor_name\": \"ACME\"\x7d").2.2.2
      (JsValue.jobj [("vendor_name", JsValue.jstr "ACME")]) rfl (by intro h; cases h)
    exact h.2.1.trans rfl

lemma mem_insertDesc {a r : AutoClassifyRule} {l : List AutoClassifyRule} :
    a ∈ insertDesc r l ↔ a = r ∨ a ∈ l := by
  induction l with
  | nil => simp [insertDesc]
  | cons x xs ih =>
    simp only [insertDesc]
    split
    · simp
    · simp [ih]
      tauto

lemma mem_sortByPriorityDesc {a : AutoClassifyRule} {l : List AutoClassifyRule} :
    a ∈ sortByPriorityDesc l ↔ a ∈ l := by
  have key : ∀ (l acc : List AutoClassifyRule),
      a ∈ l.foldl (fun acc r => insertDesc r acc) acc ↔ a ∈ acc ∨ a ∈ l := by
    intro l
    induction l with
    | nil => simp
    | cons r rs ih =>
      intro acc
      simp only [List.foldl_cons, ih, mem_insertDesc]
      simp
      tauto
  simpa using key l []

lemma firstMatch_eq_none {st : String} {l : List AutoClassifyRule}
    (h : ∀ r ∈ l, strIncludes st (jsToLower r.keyword) = false) :
    firstMatch st l = none := by
  induction l with
  | nil => rfl
  | cons r rs ih =>
    simp only [firstMatch]
    rw [if_neg (by simp [h r (by simp)])]
    exact ih (fun r' hr' => h r' (by simp [hr']))

/-- Unfolding equation for the rule engine. -/
lemma applyAuto_eq (res : OcrResult) (rules : List AutoClassifyRule) :
    applyAutoClassifyRules res rules =
      match firstMatch (jsToLower (res.vendor_name ++ " " ++ (res.description.getD "")))
          (sortByPriorityDesc (rules.filter (fun r => r.is_active))) with
      | some r => { res with type := some r.document_type }
      | none => res := rfl

/-- C5.  The rule engine considers only active rules in descending priority
order, matching on case-insensitive substring containment of the keyword in
the vendor-name/description haystack; the first match overwrites `type` and
evaluation stops, no match leaves the AI-suggested result unchanged, and
all non-`type` fields always pass through; with two active matching rules
of different priorities the higher-priority type wins in either array
order. -/
theorem c5_applyAutoClassifyRules (res : OcrResult) (rules : List AutoClassifyRule)
    (a b : AutoClassifyRule) :
    ((∀ r ∈ rules, r.is_active = true → ruleMatches res r = false) →
      applyAutoClassifyRules res rules = res) ∧
    ((applyAutoClassifyRules res rules).vendor_name = res.vendor_name ∧
      (applyAutoClassifyRules res rules).amount = res.amount ∧
      (applyAutoClassifyRules res rules).issue_date = res.issue_date ∧
      (applyAutoClassifyRules res rules).due_date = res.due_date ∧
      (applyAutoClassifyRules res rules).description = res.description ∧
      (applyAutoClassifyRules res rules).confidence = res.confidence) ∧
    (a.is_active = true → ruleMatches res a = true →
      applyAutoClassifyRules res [a] = { res with type := some a.document_type }) ∧
    (a.is_active = true → b.is_active = true →
      ruleMatches res a = true → ruleMatches res b = true →
      a.priority < b.priority →
      applyAutoClassifyRules res [a, b] = { res with type := some b.document_type } ∧
      applyAutoClassifyRules res [b, a] = { res with type := some b.document_type }) := by
  refine ⟨?_, ?_, ?_, ?_⟩
  · intro h
    have hnone : firstMatch (jsToLower (res.vendor_name ++ " " ++ (res.description.getD "")))
        (sortByPriorityDesc (rules.filter (fun r => r.is_active))) = none := by
      apply firstMatch_eq_none
      intro r hr
      rw [mem_sortByPriorityDesc, List.mem_filter] at hr
      exact h r hr.1 hr.2
    rw [applyAuto_eq, hnone]
  · rcases hfm : firstMatch (jsToLower (res.vendor_name ++ " " ++ (res.description.getD "")))
        (sortByPriorityDesc (rules.filter (fun r => r.is_active))) with _ | r <;>
      simp [applyAuto_eq, hfm]
  · intro ha hm
    have hsort : sortByPriorityDesc (List.filter (fun r => r.is_active) [a]) = [a] := by
      simp [List.filter, ha, sortByPriorityDesc, insertDesc]
    rw [applyAuto_eq, hsort]
    simp only [firstMatch]
    rw [if_pos (by simpa [ruleMatches] using hm)]
  · intro ha hb hma hmb hlt
    have hnlt : ¬ b.priority < a.priority := by omega
    constructor
    · have hsort : sortByPriorityDesc (List.filter (fun r => r.is_active) [a, b]) = [b, a] := by
        simp [List.filter, ha, hb, sortByPriorityDesc, insertDesc, hlt]
      rw [applyAuto_eq, hsort]
      simp only [firstMatch]
      rw [if_pos (by simpa [ruleMatches] using hmb)]
    · have hsort : sortByPriorityDesc (List.filter (fun r => r.is_active) [b, a]) = [b, a] := by
        simp [List.filter, ha, hb, sortByPriorityDesc, insertDesc, hnlt]
      rw [applyAuto_eq, hsort]
      simp only [firstMatch]
      rw [if_pos (by simpa [ruleMatches] using hmb)]

/-- Witness for C5: two active rules with priorities 5 and 10 both matching
(the keyword match crossing case), in both array orders. -/
theorem c5_witness :
    applyAutoClassifyRules
      { vendor_name := "Yakuhin Pharmacy", amount := none, issue_date := none,
        due_date := none, description := some "Medical supplies", type := some "領収書",
        confidence := 0 }
      [{ keyword := "PHARMACY", document_type := "経費", priority := 5, is_active := true },
       { keyword := "medical", document_type := "医薬品仕入", priority := 10, is_active := true }] =
      { vendor_name := "Yakuhin Pharmacy", amount := none, issue_date := none,
        due_date := none, description := some "Medical supplies", type := some "医薬品仕入",
        confidence := 0 } ∧
    applyAutoClassifyRules
      { vendor_name := "Yakuhin Pharmacy", amount := none, issue_date := none,
        due_date := none, description := some "Medical supplies", type := some "領収書",
        confidence := 0 }
      [{ keyword := "medical", document_type := "医薬品仕入", priority := 10, is_active := true },
       { keyword := "PHARMACY", document_type := "経費", priority := 5, is_active := true }] =
      { vendor_name := "Yakuhin Pharmacy", amount := none, issue_date := none,
        due_date := none, description := some "Medical supplies", type := some "医薬品仕入",
        confidence := 0 } := by
  have h := (c5_applyAutoClassifyRules
    { vendor_name := "Yakuhin Pharmacy", amount := none, issue_date := none,
      due_date := none, description := some "Medical supplies", type := some "領収書",
      confidence := 0 }
    []
    { keyword := "PHARMACY", document_type := "経費", priority := 5, is_active := true }
    { keyword := "medical", document_type := "医薬品仕入", priority := 10, is_active := true }).2.2.2
    rfl rfl (by decide) (by decide) (by decide)
  exact ⟨h.1, h.2⟩

/-- C3 counterexample.  The claim — a Reject call leaves every previously
non-pending item's status unchanged — is false: the reject branch filters
its bulk update only by id and owner (there is no `.eq("status",
"pending")` in src/unnamed/part_000, lines 35..44), so an already-approved
item named in `ids` is updated to `rejected`.  Falsified at a one-item
store holding an approved item. -/
theorem c3_counterexample :
    ¬ (∀ (store : List MailPendingRow) (caller : String) (ids : List String),
        ∀ it ∈ store, it.status ≠ "pending" →
          ∀ jt ∈ rejectMailItems store caller ids, jt.id = it.id → jt.status = it.status) := by
  intro h
  have hx := h
    [{ id := "m1", file_name := "a.pdf", sender := "x@example.com", ai_type := none,
       ai_confidence := none, temp_path := some "/temp/a.pdf", status := "approved",
       user_id := "u1", created_at := "2026-01-01" }]
    "u1" ["m1"]
    { id := "m1", file_name := "a.pdf", sender := "x@example.com", ai_type := none,
      ai_confidence := none, temp_path := some "/temp/a.pdf", status := "approved",
      user_id := "u1", created_at := "2026-01-01" }
    (by simp) (by decide)
    { id := "m1", file_name := "a.pdf", sender := "x@example.com", ai_type := none,
      ai_confidence := none, temp_path := some "/temp/a.pdf", status := "rejected",
      user_id := "u1", created_at := "2026-01-01" }
    (by decide) rfl
  exact absurd hx (by decide)

/-- C3 as amended.  The reject branch updates, position by position, every
caller-owned item whose id is listed to `rejected` — regardless of its
previous status, so approved (and already rejected) items are rewritten
too — and leaves all other items untouched. -/
theorem c3_reject_update (store : List MailPendingRow) (caller : String)
    (ids : List String) (i : Nat) (hi : i < store.length) :
    (rejectMailItems store caller ids).length = store.length ∧
    (rejectMailItems store caller ids)[i]? =
      some (if ids.contains (store.get ⟨i, hi⟩).id && (store.get ⟨i, hi⟩).user_id == caller
        then { store.get ⟨i, hi⟩ with status := "rejected" }
        else store.get ⟨i, hi⟩) := by
  constructor
  · simp [rejectMailItems]
  · simp only [rejectMailItems, List.getElem?_map, List.getElem?_eq_getElem hi,
      Option.map_some]
    rfl

/-- Witness for the amended C3: the approved item of the counterexample
store is rewritten to `rejected` by the reject call that names it. -/
theorem c3_reject_update_witness :
    (rejectMailItems
      [{ id := "m1", file_name := "a.pdf", sender := "x@example.com", ai_type := none,
         ai_confidence := none, temp_path := some "/temp/a.pdf", status := "approved",
         user_id := "u1", created_at := "2026-01-01" }] "u1" ["m1"])[0]? =
      some { id := "m1", file_name := "a.pdf", sender := "x@example.com", ai_type := none,
             ai_confidence := none, temp_path := some "/temp/a.pdf", status := "rejected",
             user_id := "u1", created_at := "2026-01-01" } := by
  have h := (c3_reject_update
    [{ id := "m1", file_name := "a.pdf", sender := "x@example.com", ai_type := none,
       ai_confidence := none, temp_path := some "/temp/a.pdf", status := "approved",
       user_id := "u1", created_at := "2026-01-01" }] "u1" ["m1"] 0 (by decide)).2
  exact h.trans (by decide)

/-- C4.  Every row the export aggregator reads is owned by the calling
user, and the export outcome is a function of the caller's own rows alone:
two stores agreeing on the caller-owned rows yield identical export
results (groups, counts, totalAmount, CSV rows), so documents of any other
user never influence them.  Ownership scoping comes from the row-level
security policy of the `documents` table (`rlsVisibleDocs`); the handler's
own query adds only the type and date filters. -/
theorem c4_export_owner_isolation (store₁ store₂ : List DocumentRow) (caller : String)
    (docTypes : List String) (dateFrom dateTo : String) (copyOk : DocumentRow → Bool)
    (h : store₁.filter (fun d => d.user_id == caller) =
         store₂.filter (fun d => d.user_id == caller)) :
    runExport store₁ caller docTypes dateFrom dateTo copyOk =
      runExport store₂ caller docTypes dateFrom dateTo copyOk ∧
    ∀ d ∈ selectExportDocs store₁ caller docTypes dateFrom dateTo, d.user_id = caller := by
  constructor
  · unfold runExport selectExportDocs rlsVisibleDocs
    rw [h]
  · intro d hd
    unfold selectExportDocs rlsVisibleDocs at hd
    rw [List.mem_filter] at hd
    have hm := (List.mem_filter.mp hd.1).2
    simpa using hm

/-- Witness for C4: adding another user's in-range document to the store
does not change the caller's export result. -/
theorem c4_witness :
    runExport
      [{ id := "d1", type := "請求書", vendor_name := "ACME", amount := some 1000,
         issue_date := some "2026-03-10", due_date := none, description := none,
         input_method := "upload", status := "未処理", dropbox_path := some "/経理書類/a.pdf",
         user_id := "alice", created_at := "2026-03-10" },
       { id := "d2", type := "請求書", vendor_name := "EVIL", amount := some 9999,
         issue_date := some "2026-03-15", due_date := none, description := none,
         input_method := "upload", status := "未処理", dropbox_path := some "/経理書類/b.pdf",
         user_id := "bob", created_at := "2026-03-15" }]
      "alice" ["請求書"] "2026-03-01" "2026-03-31" (fun _ => true) =
    runExport
      [{ id := "d1", type := "請求書", vendor_name := "ACME", amount := some 1000,
         issue_date := some "2026-03-10", due_date := none, description := none,
         input_method := "upload", status := "未処理", dropbox_path := some "/経理書類/a.pdf",
         user_id := "alice", created_at := "2026-03-10" }]
      "alice" ["請求書"] "2026-03-01" "2026-03-31" (fun _ => true) :=
  (c4_export_owner_isolation
    [{ id := "d1", type := "請求書", vendor_name := "ACME", amount := some 1000,
       issue_date := some "2026-03-10", due_date := none, description := none,
       input_method := "upload", status := "未処理", dropbox_path := some "/経理書類/a.pdf",
       user_id := "alice", created_at := "2026-03-10" },
     { id := "d2", type := "請求書", vendor_name := "EVIL", amount := some 9999,
       issue_date := some "2026-03-15", due_date := none, description := none,
       input_method := "upload", status := "未処理", dropbox_path := some "/経理書類/b.pdf",
       user_id := "bob", created_at := "2026-03-15" }]
    [{ id := "d1", type := "請求書", vendor_name := "ACME", amount := some 1000,
       issue_date := some "2026-03-10", due_date := none, description := none,
       input_method := "upload", status := "未処理", dropbox_path := some "/経理書類/a.pdf",
       user_id := "alice", created_at := "2026-03-10" }]
    "alice" ["請求書"] "2026-03-01" "2026-03-31" (fun _ => true) (by decide)).1

lemma exportDocStep_characterization (copyOk : DocumentRow → Bool)
    (acc : Nat × Rat × List CsvRow) (d : DocumentRow) :
    exportDocStep copyOk acc d =
      (acc.1 + (if copiedDoc copyOk d then 1 else 0),
       acc.2.1 + d.amount.getD 0,
       acc.2.2 ++ (if copiedDoc copyOk d then [exportCsvRowOf d] else [])) := by
  cases hd : d.dropbox_path with
  | none => simp [exportDocStep, hd, copiedDoc, truthyOpt]
  | some p =>
    by_cases hp : p = ""
    · simp [exportDocStep, hd, hp, copiedDoc, truthyOpt]
    · by_cases hc : copyOk d
      · simp [exportDocStep, hd, hp, hc, copiedDoc, truthyOpt, exportCsvRowOf]
      · simp [exportDocStep, hd, hp, hc, copiedDoc, truthyOpt]

lemma processGroupDocs_go (copyOk : DocumentRow → Bool) (docs : List DocumentRow) :
    ∀ acc : Nat × Rat × List CsvRow,
      docs.foldl (exportDocStep copyOk) acc =
        (acc.1 + (docs.filter (copiedDoc copyOk)).length,
         acc.2.1 + (docs.map (fun d => d.amount.getD 0)).sum,
         acc.2.2 ++ (docs.filter (copiedDoc copyOk)).map exportCsvRowOf) := by
  induction docs with
  | nil => intro acc; simp
  | cons d ds ih =>
    intro acc
    rw [List.foldl_cons, ih, exportDocStep_characterization]
    by_cases hc : copiedDoc copyOk d
    · simp [hc, List.filter_cons]
      exact ⟨by omega, by ring⟩
    · simp [hc, List.filter_cons]
      ring

/-- Loop characterization: the per-group copy counter counts exactly the
documents with a truthy storage path whose copy succeeded, the CSV rows are
exactly those documents' rows, and the amount total sums over every
document of the group. -/
lemma processGroupDocs_spec (copyOk : DocumentRow → Bool) (docs : List DocumentRow) :
    processGroupDocs copyOk docs =
      ((docs.filter (copiedDoc copyOk)).length,
       (docs.map (fun d => d.amount.getD 0)).sum,
       (docs.filter (copiedDoc copyOk)).map exportCsvRowOf) := by
  unfold processGroupDocs
  rw [processGroupDocs_go]
  simp

/-- C7.  In every per-type export result, `count` is the number of group
documents whose storage path is truthy and whose storage copy succeeded,
and exactly those documents contribute a CSV row, while `totalAmount` sums
the amounts of ALL documents of the group — null-path and failed-copy
documents included (a missing amount counts as 0). -/
theorem c7_export_count_vs_total (store : List DocumentRow) (caller : String)
    (docTypes : List String) (dateFrom dateTo : String) (copyOk : DocumentRow → Bool) :
    (runExport store caller docTypes dateFrom dateTo copyOk).results =
      (groupByType (selectExportDocs store caller docTypes dateFrom dateTo)).map
        (fun g =>
          { type := g.1
            count := (g.2.filter (copiedDoc copyOk)).length
            totalAmount := (g.2.map (fun d => d.amount.getD 0)).sum }) ∧
    (runExport store caller docTypes dateFrom dateTo copyOk).csvRows =
      ((groupByType (selectExportDocs store caller docTypes dateFrom dateTo)).map
        (fun g => (g.2.filter (copiedDoc copyOk)).map exportCsvRowOf)).flatten := by
  constructor
  · unfold runExport
    simp only [List.map_map]
    apply List.map_congr_left
    intro g _
    simp [processGroupDocs_spec]
  · unfold runExport
    simp only [List.map_map]
    congr 1
    apply List.map_congr_left
    intro g _
    simp [processGroupDocs_spec]

/-- C6.  The effective document type of an approved mail item follows the
priority chain: explicit request override, then the type of a fresh
re-analysis when a payload was supplied, then the item's stored `ai_type`,
then the default `"請求書"`; in particular an item with no stored AI type,
approved with no override and no re-analysis, yields a created document of
type `"請求書"` (and initial status `"未処理"`). -/
theorem c6_effective_type (ot : Option String) (re : Option OcrResult)
    (item : MailPendingRow) (caller : String) (mo : Option String) :
    (∀ t, ot = some t → approveItemDocType ot re item = t) ∧
    (ot = none → ∀ ocr, re = some ocr → ∀ t, ocr.type = some t →
      approveItemDocType ot re item = t) ∧
    (ot = none → (re = none ∨ ∃ ocr, re = some ocr ∧ ocr.type = none) →
      ∀ t, item.ai_type = some t → approveItemDocType ot re item = t) ∧
    (ot = none → (re = none ∨ ∃ ocr, re = some ocr ∧ ocr.type = none) →
      item.ai_type = none → approveItemDocType ot re item = "請求書") ∧
    (item.ai_type = none → ot = none → re = none →
      ∀ tempPath, item.temp_path = some tempPath → tempPath ≠ "" →
        ∃ ins, approveItem caller ot re mo item = some ins ∧
          ins.type = "請求書" ∧ ins.status = "未処理") := by
  refine ⟨?_, ?_, ?_, ?_, ?_⟩
  · intro t ht
    cases re <;> simp [approveItemDocType, ht]
  · intro hot ocr hre t ht
    subst hre
    simp [approveItemDocType, hot, ht]
  · intro hot hre t ht
    rcases hre with hre | ⟨ocr, hre, hocr⟩
    · subst hre
      simp [approveItemDocType, hot, ht]
    · subst hre
      simp [approveItemDocType, hot, ht, hocr]
  · intro hot hre hai
    rcases hre with hre | ⟨ocr, hre, hocr⟩
    · subst hre
      simp [approveItemDocType, hot, hai]
    · subst hre
      simp [approveItemDocType, hot, hai, hocr]
  · intro hai hot hre tempPath htemp hne
    subst hot; subst hre
    simp only [approveItem, htemp]
    rw [if_neg hne]
    exact ⟨_, rfl, by simp [approveItemDocType, hai], rfl⟩

/-- Witness for C6: an item with `ai_type: null` approved with no override
and no re-analysis produces a `"請求書"` document in status `"未処理"`. -/
theorem c6_witness :
    (approveItem "u1" none none none
      { id := "m2", file_name := "b.pdf", sender := "s@example.com", ai_type := none,
        ai_confidence := none, temp_path := some "/temp/b.pdf", status := "pending",
        user_id := "u1", created_at := "2026-02-01" }).map DocumentInsert.type =
      some "請求書" ∧
    (approveItem "u1" none none none
      { id := "m2", file_name := "b.pdf", sender := "s@example.com", ai_type := none,
        ai_confidence := none, temp_path := some "/temp/b.pdf", status := "pending",
        user_id := "u1", created_at := "2026-02-01" }).map DocumentInsert.status =
      some "未処理" := by
  obtain ⟨ins, h1, h2, h3⟩ := (c6_effective_type none none
    { id := "m2", file_name := "b.pdf", sender := "s@example.com", ai_type := none,
      ai_confidence := none, temp_path := some "/temp/b.pdf", status := "pending",
      user_id := "u1", created_at := "2026-02-01" } "u1" none).2.2.2.2
    rfl rfl rfl "/temp/b.pdf" rfl (by decide)
  rw [h1]
  exact ⟨by simp [h2], by simp [h3]⟩

/-- C8.  A storage move failure never blocks database persistence: in mail
approval a failed move still yields a created document whose stored path is
the item's temporary path, and in document update a failed relocation still
persists the requested status while the record keeps its old storage
path. -/
theorem c8_storage_failure_tolerance
    (caller : String) (ot : Option String) (re : Option OcrResult)
    (item : MailPendingRow) (tempPath : String)
    (existing : DocumentRow) (body : DocumentPatchBody) (toDate : String → JsDate)
    (s p : String) :
    (item.temp_path = some tempPath → tempPath ≠ "" →
      ∃ ins, approveItem caller ot re none item = some ins ∧
        ins.dropbox_path = some tempPath) ∧
    (body.status = some s → s ≠ "" → s ≠ existing.status →
      existing.dropbox_path = some p → p ≠ "" →
      ∃ row, (patchDocument existing body toDate none).response = some row ∧
        row.status = s ∧ row.dropbox_path = some p) := by
  constructor
  · intro htemp hne
    simp only [approveItem, htemp]
    rw [if_neg hne]
    exact ⟨_, rfl, rfl⟩
  · intro hs hne hdiff hdp hpne
    simp only [patchDocument]
    rw [if_pos (by simp [patchUpdateOf, DocumentUpdate.hasUpdates, hs])]
    cases hrel : patchRelocation existing (patchUpdateOf body) toDate with
    | none =>
      exact ⟨_, rfl, by simp [applyUpdate, patchUpdateOf, hs], by simp [applyUpdate, patchUpdateOf, hdp]⟩
    | some pr =>
      exact ⟨_, rfl, by simp [applyUpdate, patchUpdateOf, hs], by simp [applyUpdate, patchUpdateOf, hdp]⟩

/-- Witness for C8: a failing move in approval keeps the temporary path on
the created document; a failing relocation in update still persists the new
status with the old path retained. -/
theorem c8_witness :
    (approveItem "u1" none none none
      { id := "m3", file_name := "c.pdf", sender := "s@example.com", ai_type := some "領収書",
        ai_confidence := some 0.9, temp_path := some "/temp/c.pdf", status := "pending",
        user_id := "u1", created_at := "2026-02-02" }).map DocumentInsert.dropbox_path =
      some (some "/temp/c.pdf") ∧
    (patchDocument
      { id := "d9", type := "請求書", vendor_name := "ACME", amount := some 500,
        issue_date := some "2026-01-20", due_date := none, description := none,
        input_method := "camera", status := "未処理",
        dropbox_path := some "/経理書類/請求書/2026年/01月/未処理/x.pdf",
        user_id := "u1", created_at := "2026-01-20" }
      { type := none, vendor_name := none, amount := none, issue_date := none,
        due_date := none, description := none, status := some "処理済み" }
      (fun _ => ⟨2026, 0⟩) none).response.map DocumentRow.status = some "処理済み" ∧
    (patchDocument
      { id := "d9", type := "請求書", vendor_name := "ACME", amount := some 500,
        issue_date := some "2026-01-20", due_date := none, description := none,
        input_method := "camera", status := "未処理",
        dropbox_path := some "/経理書類/請求書/2026年/01月/未処理/x.pdf",
        user_id := "u1", created_at := "2026-01-20" }
      { type := none, vendor_name := none, amount := none, issue_date := none,
        due_date := none, description := none, status := some "処理済み" }
      (fun _ => ⟨2026, 0⟩) none).response.map DocumentRow.dropbox_path =
      some (some "/経理書類/請求書/2026年/01月/未処理/x.pdf") := by
  obtain ⟨ins, ha1, ha2⟩ := (c8_storage_failure_tolerance "u1" none none
    { id := "m3", file_name := "c.pdf", sender := "s@example.com", ai_type := some "領収書",
      ai_confidence := some 0.9, temp_path := some "/temp/c.pdf", status := "pending",
      user_id := "u1", created_at := "2026-02-02" } "/temp/c.pdf"
    { id := "d9", type := "請求書", vendor_name := "ACME", amount := some 500,
      issue_date := some "2026-01-20", due_date := none, description := none,
      input_method := "camera", status := "未処理",
      dropbox_path := some "/経理書類/請求書/2026年/01月/未処理/x.pdf",
      user_id := "u1", created_at := "2026-01-20" }
    { type := none, vendor_name := none, amount := none, issue_date := none,
      due_date := none, description := none, status := some "処理済み" }
    (fun _ => ⟨2026, 0⟩) "処理済み" "/経理書類/請求書/2026年/01月/未処理/x.pdf").1
    rfl (by decide)
  obtain ⟨row, hb1, hb2, hb3⟩ := (c8_storage_failure_tolerance "u1" none none
    { id := "m3", file_name := "c.pdf", sender := "s@example.com", ai_type := some "領収書",
      ai_confidence := some 0.9, temp_path := some "/temp/c.pdf", status := "pending",
      user_id := "u1", created_at := "2026-02-02" } "/temp/c.pdf"
    { id := "d9", type := "請求書", vendor_name := "ACME", amount := some 500,
      issue_date := some "2026-01-20", due_date := none, description := none,
      input_method := "camera", status := "未処理",
      dropbox_path := some "/経理書類/請求書/2026年/01月/未処理/x.pdf",
      user_id := "u1", created_at := "2026-01-20" }
    { type := none, vendor_name := none, amount := none, issue_date := none,
      due_date := none, description := none, status := some "処理済み" }
    (fun _ => ⟨2026, 0⟩) "処理済み" "/経理書類/請求書/2026年/01月/未処理/x.pdf").2
    rfl (by decide) (by decide) rfl (by decide)
  refine ⟨?_, ?_, ?_⟩
  · rw [ha1]; simp [ha2]
  · rw [hb1]; simp [hb2]
  · rw [hb1]; simp [hb3]

lemma patchDocument_moveRequest (existing : DocumentRow) (body : DocumentPatchBody)
    (toDate : String → JsDate) (mo : Option String) :
    (patchDocument existing body toDate mo).moveRequest =
      if (patchUpdateOf body).hasUpdates then
        patchRelocation existing (patchUpdateOf body) toDate
      else none := by
  by_cases h : (patchUpdateOf body).hasUpdates <;> simp [patchDocument, h]

/-- C9.  A relocation is attempted only when a truthy requested status
differs from the existing one and the existing path is truthy; its source
is the existing path and its target is the path built from the new (or
existing) type, the last segment of the existing path, a reference date of
`issue_date` if present else `created_at`, and the requested status.  An
update with no status change — in particular a type-only update — issues
no move and leaves the stored path unchanged. -/
theorem c9_relocation_trigger (existing : DocumentRow) (body : DocumentPatchBody)
    (toDate : String → JsDate) (mo : Option String) :
    (∀ fromP toP, (patchDocument existing body toDate mo).moveRequest = some (fromP, toP) →
      ∃ s, body.status = some s ∧ s ≠ "" ∧ s ≠ existing.status ∧
        existing.dropbox_path = some fromP ∧ fromP ≠ "" ∧
        toP = getDocumentPath (body.type.getD existing.type) (lastSegment fromP "")
          (toDate (existing.issue_date.getD existing.created_at)) s ∧ toP ≠ fromP) ∧
    (body.status = none →
      (patchDocument existing body toDate mo).moveRequest = none ∧
      ∀ row, (patchDocument existing body toDate mo).response = some row →
        row.dropbox_path = existing.dropbox_path) ∧
    (body.status = some existing.status →
      (patchDocument existing body toDate mo).moveRequest = none) := by
  refine ⟨?_, ?_, ?_⟩
  · intro fromP toP h
    rw [patchDocument_moveRequest] at h
    by_cases hu : (patchUpdateOf body).hasUpdates
    · rw [if_pos hu] at h
      cases hs : body.status with
      | none => simp [patchRelocation, patchUpdateOf, hs] at h
      | some s =>
        cases hdp : existing.dropbox_path with
        | none => simp [patchRelocation, patchUpdateOf, hs, hdp] at h
        | some oldPath =>
          simp only [patchRelocation, patchUpdateOf, hs, hdp] at h
          split at h
          next hcond =>
            simp only [Bool.and_eq_true, decide_eq_true_eq] at hcond
            split at h
            next hpath =>
              obtain ⟨h1, h2⟩ := Prod.mk.inj (Option.some.inj h)
              subst h1
              subst h2
              exact ⟨s, rfl, hcond.1.1, hcond.1.2, rfl, hcond.2, rfl, hpath⟩
            next hpath => cases h
          next hcond => cases h
    · rw [if_neg hu] at h
      cases h
  · intro hs
    have hrel : patchRelocation existing (patchUpdateOf body) toDate = none := by
      unfold patchRelocation
      simp [patchUpdateOf, hs]
    constructor
    · rw [patchDocument_moveRequest, hrel]
      simp
    · intro row hrow
      simp only [patchDocument, hrel] at hrow
      by_cases hu : (patchUpdateOf body).hasUpdates
      · rw [if_pos hu] at hrow
        cases hrow
        simp [applyUpdate, patchUpdateOf]
      · rw [if_neg hu] at hrow
        cases hrow
  · intro hs
    have hrel : patchRelocation existing (patchUpdateOf body) toDate = none := by
      unfold patchRelocation
      cases hdp : existing.dropbox_path with
      | none => simp [patchUpdateOf, hs, hdp]
      | some oldPath => simp [patchUpdateOf, hs, hdp]
    rw [patchDocument_moveRequest, hrel]
    simp

/-- Witness for C9: an update that changes only the type issues no move and
leaves the stored path unchanged. -/
theorem c9_witness :
    (patchDocument
      { id := "d7", type := "請求書", vendor_name := "ACME", amount := some 500,
        issue_date := some "2026-01-20", due_date := none, description := none,
        input_method := "camera", status := "未処理",
        dropbox_path := some "/経理書類/請求書/2026年/01月/未処理/x.pdf",
        user_id := "u1", created_at := "2026-01-20" }
      { type := some "領収書", vendor_name := none, amount := none, issue_date := none,
        due_date := none, description := none, status := none }
      (fun _ => ⟨2026, 0⟩) none).moveRequest = none ∧
    (patchDocument
      { id := "d7", type := "請求書", vendor_name := "ACME", amount := some 500,
        issue_date := some "2026-01-20", due_date := none, description := none,
        input_method := "camera", status := "未処理",
        dropbox_path := some "/経理書類/請求書/2026年/01月/未処理/x.pdf",
        user_id := "u1", created_at := "2026-01-20" }
      { type := some "領収書", vendor_name := none, amount := none, issue_date := none,
        due_date := none, description := none, status := none }
      (fun _ => ⟨2026, 0⟩) none).response.map DocumentRow.dropbox_path =
      some (some "/経理書類/請求書/2026年/01月/未処理/x.pdf") := by
  have h := (c9_relocation_trigger
    { id := "d7", type := "請求書", vendor_name := "ACME", amount := some 500,
      issue_date := some "2026-01-20", due_date := none, description := none,
      input_method := "camera", status := "未処理",
      dropbox_path := some "/経理書類/請求書/2026年/01月/未処理/x.pdf",
      user_id := "u1", created_at := "2026-01-20" }
    { type := some "領収書", vendor_name := none, amount := none, issue_date := none,
      due_date := none, description := none, status := none }
    (fun _ => ⟨2026, 0⟩) none).2.1 rfl
  refine ⟨h.1, ?_⟩
  rcases hr : (patchDocument
    { id := "d7", type := "請求書", vendor_name := "ACME", amount := some 500,
      issue_date := some "2026-01-20", due_date := none, description := none,
      input_method := "camera", status := "未処理",
      dropbox_path := some "/経理書類/請求書/2026年/01月/未処理/x.pdf",
      user_id := "u1", created_at := "2026-01-20" }
    { type := some "領収書", vendor_name := none, amount := none, issue_date := none,
      due_date := none, description := none, status := none }
    (fun _ => ⟨2026, 0⟩) none).response with _ | row
  · exact absurd hr (by decide)
  · simp [h.2 row hr]

/-- C10.  Every document created through the public creation paths — the
direct registration endpoint and mail-approval insertion — is inserted with
status `"未処理"`, whatever status value the caller put in the request
body; no creation path produces any other initial status. -/
theorem c10_created_status (caller : String) (body : DocumentCreateBody)
    (ot : Option String) (re : Option OcrResult) (mo : Option String)
    (item : MailPendingRow) :
    (∀ ins, createDocument caller body = some ins → ins.status = "未処理") ∧
    (∀ ins, approveItem caller ot re mo item = some ins → ins.status = "未処理") := by
  constructor
  · intro ins h
    unfold createDocument at h
    cases ht : body.type with
    | none => rw [ht] at h; cases h
    | some t =>
      cases hv : body.vendor_name with
      | none => rw [ht, hv] at h; cases h
      | some v =>
        cases hi : body.input_method with
        | none => rw [ht, hv, hi] at h; cases h
        | some im =>
          rw [ht, hv, hi] at h
          cases h
          rfl
  · intro ins h
    cases htp : item.temp_path with
    | none =>
      simp only [approveItem, htp] at h
      cases h
    | some tempPath =>
      simp only [approveItem, htp] at h
      split at h
      next => cases h
      next =>
        cases h
        rfl

/-- Witness for C10: a registration body that tries to supply
`status := "処理済み"` still produces a document created in `"未処理"`, as
does a mail approval. -/
theorem c10_witness :
    (createDocument "u1"
      { type := some "請求書", vendor_name := some "ACME", amount := some 100,
        issue_date := some "2026-03-01", due_date := none, description := none,
        input_method := some "upload", dropbox_path := none, ocr_raw := none,
        status := some "処理済み" }).map DocumentInsert.status = some "未処理" ∧
    (approveItem "u1" none none (some "/経理書類/請求書/2026年/03月/未処理/c.pdf")
      { id := "m4", file_name := "c.pdf", sender := "s@example.com", ai_type := some "請求書",
        ai_confidence := some 0.8, temp_path := some "/temp/c.pdf", status := "pending",
        user_id := "u1", created_at := "2026-03-01" }).map DocumentInsert.status =
      some "未処理" := by
  constructor
  · rcases hc : createDocument "u1"
      { type := some "請求書", vendor_name := some "ACME", amount := some 100,
        issue_date := some "2026-03-01", due_date := none, description := none,
        input_method := some "upload", dropbox_path := none, ocr_raw := none,
        status := some "処理済み" } with _ | ins
    · exact absurd hc (by decide)
    · simp [(c10_created_status "u1"
        { type := some "請求書", vendor_name := some "ACME", amount := some 100,
          issue_date := some "2026-03-01", due_date := none, description := none,
          input_method := some "upload", dropbox_path := none, ocr_raw := none,
          status := some "処理済み" } none none none
        { id := "m4", file_name := "c.pdf", sender := "s@example.com", ai_type := some "請求書",
          ai_confidence := some 0.8, temp_path := some "/temp/c.pdf", status := "pending",
          user_id := "u1", created_at := "2026-03-01" }).1 ins hc]
  · rcases ha : approveItem "u1" none none (some "/経理書類/請求書/2026年/03月/未処理/c.pdf")
      { id := "m4", file_name := "c.pdf", sender := "s@example.com", ai_type := some "請求書",
        ai_confidence := some 0.8, temp_path := some "/temp/c.pdf", status := "pending",
        user_id := "u1", created_at := "2026-03-01" } with _ | ins
    · exact absurd ha (by decide)
    · simp [(c10_created_status "u1"
        { type := some "請求書", vendor_name := some "ACME", amount := some 100,
          issue_date := some "2026-03-01", due_date := none, description := none,
          input_method := some "upload", dropbox_path := none, ocr_raw := none,
          status := some "処理済み" } none none
        (some "/経理書類/請求書/2026年/03月/未処理/c.pdf")
        { id := "m4", file_name := "c.pdf", sender := "s@example.com", ai_type := some "請求書",
          ai_confidence := some 0.8, temp_path := some "/temp/c.pdf", status := "pending",
          user_id := "u1", created_at := "2026-03-01" }).2 ins ha]

end Claims
